import Mathlib

/-!
Verification of the BankGPT loan-origination decision core.

The definitions below are a shallow embedding of the Python sources:
`run_unified_agent` and `_extract_all_information` (master_agent.py),
`compute_emi` (utils.py), `calculate_emi` (master_agent.py), and the
per-turn state update performed by app.py / session_manager.py.

Free-text regular-expression scanning is abstracted by a `MsgScan`
record holding, for each regex of the extractor, the capture(s) that
the regex produces on the message; the extraction, priority and
merging logic is translated faithfully from the source.  Python dict
truthiness (`if not state.get(...)`, `x or y`) is modelled by the
`truthyS` / `truthyN` / `pyOrS` / `pyOrN` helpers.  Machine floats of
the EMI arithmetic are modelled by exact rationals.
-/

namespace BankGPT

/-- Eligibility outcome paths of the decision engine. -/
inductive Path where
  | FAST_TRACK
  | CONDITIONAL
  | MANUAL_REVIEW
  | HARD_REJECT
  | REGISTER
deriving DecidableEq

/-- Conversation stages used by master_agent.py. -/
inductive Stage where
  | loan_understanding
  | phone_gathering
  | amount_gathering
  | eligibility_check
  | document_needed
  | approved
  | completed
  | greeting
deriving DecidableEq

/-- Modelled from the spec: `agents.py` (the fraud-screen collaborator
`fraud_agent`) is not present under src/; per spec section 6 the screen
returns one of Clear, Blacklisted, Unknown (unavailability is folded
into Unknown, which the spec treats identically). -/
inductive FraudStatus where
  | Clear
  | Blacklisted
  | Unknown
deriving DecidableEq

/-- The message templates produced by the engine.  Terminal-path
messages are fixed templates in the source; the LLM-generated text is
abstracted by a single constructor. -/
inductive Msg where
  | greetingMsg
  | registerMsg
  | manualReviewMsg
  | fastTrackMsg
  | condDocMsg
  | condManualMsg
  | condApprovedMsg
  | hardRejectMsg
  | finalizedMsg
  | llmMsg
  | fallbackPromptMsg
  | retryMsg
deriving DecidableEq

/-- A registry (mock CRM) record; optional fields model dict keys that
may be absent, with the defaults applied at the use sites exactly as
in the source (`record.get(key, default)`). -/
structure CustomerRecord where
  name : String
  credit_score : Option Nat
  approved_amount : Option Nat
  income : Option Nat
  blacklisted : Option Bool
deriving DecidableEq

/-- The per-session conversation state dict.  `none` models an absent
key (or an explicit Python `None`). -/
structure ConvState where
  phone : Option String := none
  verified : Bool := false
  not_in_crm : Bool := false
  customer_name : Option String := none
  credit_score : Option Nat := none
  pre_approved_limit : Option Nat := none
  income : Option Nat := none
  requested_amount : Option Nat := none
  document_uploaded : Bool := false
  eligibility_path : Option Path := none
  conversation_stage : Option Stage := none
  selected_tenure : Option Nat := none
  final_emi : Option ℚ := none
deriving DecidableEq

/-- Abstraction of the regex scans `_extract_all_information` performs
on one user message: for each pattern, the captures it yields on this
message, in textual order. -/
structure MsgScan where
  phoneMatches : List String := []
  lakh : Option ℚ := none
  crore : Option ℚ := none
  rupee : Option Nat := none
  bigNums : List Nat := []
  incomeNum : Option Nat := none
  tenureHits : List Bool := []
deriving DecidableEq

/-- The candidate-field dict returned by `_extract_all_information`
(spread into the turn result). -/
structure Extracted where
  phone : Option String := none
  customer_name : Option String := none
  credit_score : Option Nat := none
  pre_approved_limit : Option Nat := none
  income : Option Nat := none
  verified : Option Bool := none
  not_in_crm : Option Bool := none
  requested_amount : Option Nat := none
  selected_tenure : Option Nat := none
  final_emi : Option ℚ := none
deriving DecidableEq

/-- Python truthiness of an optional string (absent and "" are falsy). -/
def truthyS : Option String → Bool
  | some s => !s.isEmpty
  | none => false

/-- Python truthiness of an optional number (absent and 0 are falsy). -/
def truthyN : Option Nat → Bool
  | some n => n != 0
  | none => false

/-- Python `a or b` on optional strings. -/
def pyOrS (a b : Option String) : Option String :=
  if truthyS a then a else b

/-- Python `a or b` on optional numbers. -/
def pyOrN (a b : Option Nat) : Option Nat :=
  if truthyN a then a else b

/-- `compute_emi` from utils.py, over exact rationals. -/
def compute_emi (principal annual_rate_percent : ℚ) (tenure_months : ℕ) : ℚ :=
  let r := annual_rate_percent / 100 / 12
  if r = 0 then principal / (tenure_months : ℚ)
  else principal * r * (1 + r) ^ tenure_months / ((1 + r) ^ tenure_months - 1)

/-- `calculate_emi` from master_agent.py (same body as `compute_emi`). -/
def calculate_emi (principal rate : ℚ) (tenure_months : ℕ) : ℚ :=
  let r := rate / 100 / 12
  if r = 0 then principal / (tenure_months : ℚ)
  else principal * r * (1 + r) ^ tenure_months / ((1 + r) ^ tenure_months - 1)

/-- The denominator used by the EMI formula in the branch selected for
the given rate. -/
def emiDenominator (annual_rate_percent : ℚ) (tenure_months : ℕ) : ℚ :=
  let r := annual_rate_percent / 100 / 12
  if r = 0 then (tenure_months : ℚ)
  else (1 + r) ^ tenure_months - 1

/-- Range filter of the amount extractor: between 1 lakh and 10 crore. -/
def amtInRange (n : Nat) : Bool :=
  100000 ≤ n && n ≤ 100000000

/-- The requested-amount extraction chain of `_extract_all_information`
(patterns 1-4, an if/elif chain: first matching regex decides). -/
def extractAmount (m : MsgScan) : Option Nat :=
  match m.lakh with
  | some q => some (Int.toNat ⌊q * 100000⌋)
  | none =>
    match m.crore with
    | some q => some (Int.toNat ⌊q * 10000000⌋)
    | none =>
      match m.rupee with
      | some v => if amtInRange v then some v else none
      | none => m.bigNums.find? amtInRange

/-- Months encoded by the ten tenure regexes, in source order. -/
def tenureTable : List Nat := [24, 36, 48, 60, 72, 24, 36, 48, 60, 72]

/-- Tenure extraction: the ten patterns are tried in order, first hit
wins. -/
def extractTenure (hits : List Bool) : Option Nat :=
  (List.zip hits tenureTable).findSome? (fun p => if p.1 then some p.2 else none)

/-- `_extract_all_information` from master_agent.py.  `db` is the mock
CRM; the registry lookup inside the phone branch is `verification_agent`,
modelled from the spec (agents.py is not under src/): a pure lookup
returning the record or absence. -/
def extractAll (m : MsgScan) (st : ConvState) (db : String → Option CustomerRecord) :
    Extracted :=
  let e0 : Extracted := {}
  let e1 :=
    if truthyS st.phone then e0
    else
      match m.phoneMatches with
      | [] => e0
      | p :: _ =>
        match db p with
        | some r =>
          { e0 with
            phone := some p
            customer_name := some r.name
            credit_score := some (r.credit_score.getD 700)
            pre_approved_limit := some (r.approved_amount.getD 500000)
            income := some (r.income.getD 50000)
            verified := some true }
        | none =>
          { e0 with phone := some p, verified := some false, not_in_crm := some true }
  let e2 :=
    if truthyN st.requested_amount then e1
    else { e1 with requested_amount := extractAmount m }
  let e3 :=
    if truthyN st.income then e2
    else
      match m.incomeNum with
      | some v => { e2 with income := some v }
      | none => e2
  if truthyN st.selected_tenure then e3
  else { e3 with selected_tenure := extractTenure m.tenureHits }

/-- `_determine_adaptive_stage` from master_agent.py. -/
def determineAdaptiveStage (st : ConvState) (ex : Extracted) : Stage :=
  let hasPhone := truthyS st.phone || truthyS ex.phone
  let hasAmount := truthyN st.requested_amount || truthyN ex.requested_amount
  let hasName := truthyS st.customer_name || truthyS ex.customer_name
  if hasAmount && hasPhone then .eligibility_check
  else if hasPhone && !hasAmount then .amount_gathering
  else if hasName && !hasPhone then .phone_gathering
  else .loan_understanding

/-- Outcome of the inline eligibility decision block. -/
structure Decision where
  path : Path
  stage : Stage
  msg : Msg
deriving DecidableEq

/-- The eligibility decision block of `run_unified_agent` (the branch
taken when phone and amount are both known and the session is in the
CRM), master_agent.py lines 209-275.  `fr` is the fraud-screen result
for the record (modelled from the spec, see `FraudStatus`). -/
def decideEligibility (record : Option CustomerRecord)
    (stLimit stScore : Option Nat) (amount : Nat)
    (docUploaded : Bool) (fr : FraudStatus) : Decision :=
  let limit :=
    match record with
    | some r => r.approved_amount.getD (stLimit.getD 0)
    | none => stLimit.getD 0
  let credit :=
    match record with
    | some r => r.credit_score.getD (stScore.getD 0)
    | none => stScore.getD 0
  let black :=
    match record with
    | some r => r.blacklisted.getD false
    | none => false
  if amount ≤ limit then
    if fr == .Blacklisted || black then ⟨.MANUAL_REVIEW, .completed, .manualReviewMsg⟩
    else ⟨.FAST_TRACK, .approved, .fastTrackMsg⟩
  else
    let within2x := decide (0 < limit) && decide (amount ≤ 2 * limit)
    let strong := decide (700 ≤ credit)
    if within2x || strong then
      if !docUploaded then ⟨.CONDITIONAL, .document_needed, .condDocMsg⟩
      else if fr == .Blacklisted || black then ⟨.MANUAL_REVIEW, .completed, .condManualMsg⟩
      else ⟨.CONDITIONAL, .completed, .condApprovedMsg⟩
    else ⟨.HARD_REJECT, .completed, .hardRejectMsg⟩

/-- The dict returned by one call of `run_unified_agent`. -/
structure TurnResult where
  message : Msg
  conversation_stage : Stage
  eligibility_path : Option Path := none
  errorInfo : Option String := none
  selected_tenure : Option Nat := none
  final_emi : Option ℚ := none
  extracted : Extracted := {}
deriving DecidableEq

/-- The part of `run_unified_agent` that runs when the post-approval
tenure-finalization block did not return early (master_agent.py lines
188-311): the LLM/fallback response, the not-in-CRM registration
redirect, and the eligibility decision block. -/
def agentRest (ex : Extracted) (st : ConvState)
    (db : String → Option CustomerRecord)
    (fraud : Option CustomerRecord → FraudStatus) (llmOk : Bool) : TurnResult :=
  let phone := pyOrS st.phone ex.phone
  let amount := pyOrN st.requested_amount ex.requested_amount
  let response0 : Msg :=
    if truthyS phone && truthyN amount then .llmMsg
    else if llmOk then .llmMsg else .fallbackPromptMsg
  let nextStage0 := determineAdaptiveStage st ex
  if truthyS phone && (st.not_in_crm || ex.not_in_crm = some true) then
    { message := .registerMsg
      conversation_stage := .completed
      eligibility_path := some .REGISTER
      extracted := ex }
  else if truthyS phone && truthyN amount then
    let record := db (phone.getD "")
    let d := decideEligibility record st.pre_approved_limit st.credit_score
      (amount.getD 0) st.document_uploaded (fraud record)
    { message := d.msg
      conversation_stage := d.stage
      eligibility_path := some d.path
      extracted := ex }
  else
    { message := response0
      conversation_stage := nextStage0
      eligibility_path := st.eligibility_path
      extracted := ex }

/-- The successful (no internal exception) body of `run_unified_agent`
for a non-first turn, master_agent.py lines 98-311.  `fraud` is the
fraud-screen collaborator and `llmOk` abstracts whether the external
text generator returned usable text.  The `approval_context` sidebar
payload is not modelled: it feeds only the UI letter rendering. -/
def runAgentOk (m : MsgScan) (st : ConvState)
    (db : String → Option CustomerRecord)
    (fraud : Option CustomerRecord → FraudStatus) (llmOk : Bool) : TurnResult :=
  let ex := extractAll m st db
  if st.conversation_stage = some .approved then
    match ex.selected_tenure with
    | some t =>
      let loan := st.requested_amount.getD 0
      if 0 < loan then
        let monthlyRate : ℚ := (17 / 2) / 100 / 12
        let emi := (loan : ℚ) * monthlyRate * (1 + monthlyRate) ^ t /
          ((1 + monthlyRate) ^ t - 1)
        { message := .finalizedMsg
          conversation_stage := .completed
          eligibility_path := some (st.eligibility_path.getD .FAST_TRACK)
          selected_tenure := some t
          final_emi := some emi
          extracted := { ex with selected_tenure := some t, final_emi := some emi } }
      else agentRest ex st db fraud llmOk
    | none => agentRest ex st db fraud llmOk
  else agentRest ex st db fraud llmOk

/-- `run_unified_agent` with its first-turn greeting and its
turn-boundary try/except: `fault` injects an unexpected internal
exception raised anywhere inside the try body (the except arm of
master_agent.py lines 313-322). -/
def run_unified_agent (firstTurn : Bool) (m : MsgScan) (st : ConvState)
    (db : String → Option CustomerRecord)
    (fraud : Option CustomerRecord → FraudStatus) (llmOk : Bool)
    (fault : Option String) : TurnResult :=
  if firstTurn then
    { message := .greetingMsg, conversation_stage := .loan_understanding }
  else
    match fault with
    | some e =>
      { message := .retryMsg
        conversation_stage := st.conversation_stage.getD .loan_understanding
        errorInfo := some e }
    | none => runAgentOk m st db fraud llmOk

/-- The state update app.py performs after each turn (`update_dict`
construction, app.py lines 470-494, followed by
`update_conversation_state`, a plain dict update).  Each extracted
field is copied only when truthy; `not_in_crm`, `document_uploaded`,
`selected_tenure` and `final_emi` are never copied. -/
def applyUpdate (st : ConvState) (r : TurnResult) : ConvState :=
  { st with
    conversation_stage := some r.conversation_stage
    phone := if truthyS r.extracted.phone then r.extracted.phone else st.phone
    customer_name :=
      if truthyS r.extracted.customer_name then r.extracted.customer_name
      else st.customer_name
    credit_score :=
      if truthyN r.extracted.credit_score then r.extracted.credit_score
      else st.credit_score
    pre_approved_limit :=
      if truthyN r.extracted.pre_approved_limit then r.extracted.pre_approved_limit
      else st.pre_approved_limit
    income := if truthyN r.extracted.income then r.extracted.income else st.income
    requested_amount :=
      if truthyN r.extracted.requested_amount then r.extracted.requested_amount
      else st.requested_amount
    eligibility_path :=
      if r.eligibility_path.isSome then r.eligibility_path else st.eligibility_path
    verified := if r.extracted.verified = some true then true else st.verified }

/-! ### Helper lemmas -/

theorem truthyS_of_some {o : Option String} {p : String}
    (hp : o = some p) (h2 : p ≠ "") : truthyS o = true := by
  simp [truthyS, hp, Bool.eq_false_iff, String.isEmpty_iff, h2]

theorem truthyN_of_some {o : Option Nat} {a : Nat}
    (ha : o = some a) (h2 : a ≠ 0) : truthyN o = true := by
  simp [truthyN, ha, h2]

theorem pyOrS_of_truthy {a : Option String} (b : Option String)
    (h : truthyS a = true) : pyOrS a b = a := by
  simp [pyOrS, h]

theorem pyOrN_of_truthy {a : Option Nat} (b : Option Nat)
    (h : truthyN a = true) : pyOrN a b = a := by
  simp [pyOrN, h]

theorem extractAll_phone_skip (m : MsgScan) (st : ConvState)
    (db : String → Option CustomerRecord) (h : truthyS st.phone = true) :
    (extractAll m st db).phone = none ∧
    (extractAll m st db).customer_name = none ∧
    (extractAll m st db).credit_score = none ∧
    (extractAll m st db).pre_approved_limit = none ∧
    (extractAll m st db).verified = none ∧
    (extractAll m st db).not_in_crm = none := by
  unfold extractAll
  simp [h]
  repeat' split
  all_goals simp

theorem extractAll_amount_skip (m : MsgScan) (st : ConvState)
    (db : String → Option CustomerRecord) (h : truthyN st.requested_amount = true) :
    (extractAll m st db).requested_amount = none := by
  unfold extractAll
  repeat' split
  all_goals simp_all

theorem agentRest_extracted_eq (ex : Extracted) (st : ConvState)
    (db : String → Option CustomerRecord)
    (fraud : Option CustomerRecord → FraudStatus) (llmOk : Bool) :
    (agentRest ex st db fraud llmOk).extracted = ex := by
  unfold agentRest
  simp only [apply_ite TurnResult.extracted]
  simp

theorem agentRest_final_emi (ex : Extracted) (st : ConvState)
    (db : String → Option CustomerRecord)
    (fraud : Option CustomerRecord → FraudStatus) (llmOk : Bool) :
    (agentRest ex st db fraud llmOk).final_emi = none := by
  unfold agentRest
  simp only [apply_ite TurnResult.final_emi]
  simp

theorem runAgentOk_not_approved (m : MsgScan) (st : ConvState)
    (db : String → Option CustomerRecord)
    (fraud : Option CustomerRecord → FraudStatus) (llmOk : Bool)
    (h : st.conversation_stage ≠ some Stage.approved) :
    runAgentOk m st db fraud llmOk = agentRest (extractAll m st db) st db fraud llmOk := by
  unfold runAgentOk
  rw [if_neg h]

theorem runAgentOk_decision (m : MsgScan) (st : ConvState)
    (db : String → Option CustomerRecord)
    (fraud : Option CustomerRecord → FraudStatus) (llmOk : Bool)
    (p : String) (a : Nat)
    (hφ : st.phone = some p) (hφ2 : p ≠ "")
    (hρ : st.requested_amount = some a) (ha : a ≠ 0)
    (hn : st.not_in_crm = false)
    (hstg : st.conversation_stage ≠ some Stage.approved) :
    runAgentOk m st db fraud llmOk =
      { message := (decideEligibility (db p) st.pre_approved_limit st.credit_score a
          st.document_uploaded (fraud (db p))).msg
        conversation_stage := (decideEligibility (db p) st.pre_approved_limit st.credit_score a
          st.document_uploaded (fraud (db p))).stage
        eligibility_path := some (decideEligibility (db p) st.pre_approved_limit st.credit_score a
          st.document_uploaded (fraud (db p))).path
        extracted := extractAll m st db } := by
  have hts := truthyS_of_some hφ hφ2
  have htn := truthyN_of_some hρ ha
  have hts2 : truthyS (some p) = true := truthyS_of_some rfl hφ2
  have htn2 : truthyN (some a) = true := truthyN_of_some rfl ha
  have hskip := extractAll_phone_skip m st db hts
  rw [runAgentOk_not_approved m st db fraud llmOk hstg]
  unfold agentRest
  rw [pyOrS_of_truthy _ hts, pyOrN_of_truthy _ htn]
  simp [hts2, htn2, hn, hskip.2.2.2.2.2, hφ, hρ]

theorem runAgentOk_extracted (m : MsgScan) (st : ConvState)
    (db : String → Option CustomerRecord)
    (fraud : Option CustomerRecord → FraudStatus) (llmOk : Bool) :
    (runAgentOk m st db fraud llmOk).extracted.phone = (extractAll m st db).phone ∧
    (runAgentOk m st db fraud llmOk).extracted.requested_amount
      = (extractAll m st db).requested_amount := by
  unfold runAgentOk
  by_cases h1 : st.conversation_stage = some Stage.approved
  · rw [if_pos h1]
    cases hsel : (extractAll m st db).selected_tenure with
    | none => simp only [hsel]; simp [agentRest_extracted_eq]
    | some t =>
      simp only [hsel]
      by_cases h2 : 0 < st.requested_amount.getD 0
      · simp [h2]
      · simp [h2, agentRest_extracted_eq]
  · rw [if_neg h1]
    simp [agentRest_extracted_eq]

theorem findSome_zip_mem : ∀ (hits : List Bool) (tab : List Nat) (v : Nat),
    (List.zip hits tab).findSome? (fun p => if p.1 then some p.2 else none) = some v →
    v ∈ tab := by
  intro hits
  induction hits with
  | nil => intro tab v h; simp [List.findSome?] at h
  | cons b bs ih =>
    intro tab v h
    cases tab with
    | nil => simp [List.findSome?] at h
    | cons t ts =>
      cases b with
      | true =>
        simp [List.zip_cons_cons, List.findSome?] at h
        simp [h]
      | false =>
        simp [List.zip_cons_cons, List.findSome?] at h
        exact List.mem_cons_of_mem t (ih ts v h)

/-! ### Claim theorems -/

/-- C1: once phone and requested amount are known, the session is in
the CRM and the amount is within the pre-approved limit, the engine
yields MANUAL_REVIEW with stage completed exactly when the fraud
screen returns Blacklisted or the record's blacklisted flag is set;
for every other fraud result it yields FAST_TRACK with stage approved
and computes no final EMI on that turn. -/
theorem C1_fast_track_vs_manual_review (m : MsgScan) (st : ConvState)
    (db : String → Option CustomerRecord)
    (fraud : Option CustomerRecord → FraudStatus) (llmOk : Bool)
    (p : String) (a lim : Nat) (rec : CustomerRecord)
    (hφ : st.phone = some p) (hφ2 : p ≠ "")
    (hρ : st.requested_amount = some a) (ha : a ≠ 0)
    (hn : st.not_in_crm = false)
    (hstg : st.conversation_stage ≠ some Stage.approved)
    (hdb : db p = some rec) (hlim : rec.approved_amount = some lim)
    (hle : a ≤ lim) :
    (((run_unified_agent false m st db fraud llmOk none).eligibility_path
        = some Path.MANUAL_REVIEW ∧
      (run_unified_agent false m st db fraud llmOk none).conversation_stage
        = Stage.completed)
      ↔ (fraud (some rec) = FraudStatus.Blacklisted ∨
          rec.blacklisted.getD false = true)) ∧
    (¬ (fraud (some rec) = FraudStatus.Blacklisted ∨
          rec.blacklisted.getD false = true) →
      (run_unified_agent false m st db fraud llmOk none).eligibility_path
        = some Path.FAST_TRACK ∧
      (run_unified_agent false m st db fraud llmOk none).conversation_stage
        = Stage.approved ∧
      (run_unified_agent false m st db fraud llmOk none).final_emi = none) := by
  have hrun : run_unified_agent false m st db fraud llmOk none
      = runAgentOk m st db fraud llmOk := rfl
  rw [hrun, runAgentOk_decision m st db fraud llmOk p a hφ hφ2 hρ ha hn hstg]
  unfold decideEligibility
  by_cases hbl : fraud (some rec) = FraudStatus.Blacklisted ∨
      rec.blacklisted.getD false = true
  · obtain h | h := hbl <;> simp [hdb, hlim, hle, h]
  · push_neg at hbl
    have h2 : rec.blacklisted.getD false = false := by
      simpa using hbl.2
    simp [hdb, hlim, hle, hbl.1, h2]

/-- C2: amount above limit but within policy tolerance (within twice a
positive limit, or credit score at least 700) yields CONDITIONAL; with
no document the stage is document_needed, with the document uploaded
the fraud check is re-run and decides between MANUAL_REVIEW and a
completed conditional approval. -/
theorem C2_conditional_path (m : MsgScan) (st : ConvState)
    (db : String → Option CustomerRecord)
    (fraud : Option CustomerRecord → FraudStatus) (llmOk : Bool)
    (p : String) (a lim cs : Nat) (rec : CustomerRecord)
    (hφ : st.phone = some p) (hφ2 : p ≠ "")
    (hρ : st.requested_amount = some a) (ha : a ≠ 0)
    (hn : st.not_in_crm = false)
    (hstg : st.conversation_stage ≠ some Stage.approved)
    (hdb : db p = some rec) (hlim : rec.approved_amount = some lim)
    (hcs : rec.credit_score = some cs)
    (hgt : lim < a)
    (hcond : (0 < lim ∧ a ≤ 2 * lim) ∨ 700 ≤ cs) :
    (st.document_uploaded = false →
      (run_unified_agent false m st db fraud llmOk none).eligibility_path
        = some Path.CONDITIONAL ∧
      (run_unified_agent false m st db fraud llmOk none).conversation_stage
        = Stage.document_needed) ∧
    (st.document_uploaded = true →
      ((fraud (some rec) = FraudStatus.Blacklisted ∨
          rec.blacklisted.getD false = true) →
        (run_unified_agent false m st db fraud llmOk none).eligibility_path
          = some Path.MANUAL_REVIEW ∧
        (run_unified_agent false m st db fraud llmOk none).conversation_stage
          = Stage.completed) ∧
      (¬ (fraud (some rec) = FraudStatus.Blacklisted ∨
            rec.blacklisted.getD false = true) →
        (run_unified_agent false m st db fraud llmOk none).eligibility_path
          = some Path.CONDITIONAL ∧
        (run_unified_agent false m st db fraud llmOk none).conversation_stage
          = Stage.completed)) := by
  have hrun : run_unified_agent false m st db fraud llmOk none
      = runAgentOk m st db fraud llmOk := rfl
  rw [hrun, runAgentOk_decision m st db fraud llmOk p a hφ hφ2 hρ ha hn hstg]
  unfold decideEligibility
  have hnle : ¬ a ≤ lim := not_le.mpr hgt
  constructor
  · intro hdoc
    rcases hcond with ⟨h1, h2⟩ | h1 <;> simp [hdb, hlim, hcs, hnle, hdoc, h1]
    · simp [h2]
  · intro hdoc
    constructor
    · intro hbl
      rcases hcond with ⟨h1, h2⟩ | h1 <;>
        obtain hb | hb := hbl <;>
          simp [hdb, hlim, hcs, hnle, hdoc, h1, hb]
      · simp [h2]
      · simp [h2]
    · intro hbl
      push_neg at hbl
      have hb2 : rec.blacklisted.getD false = false := by
        simpa using hbl.2
      rcases hcond with ⟨h1, h2⟩ | h1 <;>
        simp [hdb, hlim, hcs, hnle, hdoc, h1, hbl.1, hb2]
      · simp [h2]

/-- C3: amount above limit with neither tolerance condition holding
yields HARD_REJECT with stage completed; with a zero limit the
fast-track test already failed and within_2x is forced false, so the
reject/non-reject outcome is decided solely by the credit score. -/
theorem C3_hard_reject (m : MsgScan) (st : ConvState)
    (db : String → Option CustomerRecord)
    (fraud : Option CustomerRecord → FraudStatus) (llmOk : Bool)
    (p : String) (a lim cs : Nat) (rec : CustomerRecord)
    (hφ : st.phone = some p) (hφ2 : p ≠ "")
    (hρ : st.requested_amount = some a) (ha : a ≠ 0)
    (hn : st.not_in_crm = false)
    (hstg : st.conversation_stage ≠ some Stage.approved)
    (hdb : db p = some rec) (hlim : rec.approved_amount = some lim)
    (hcs : rec.credit_score = some cs)
    (hgt : lim < a) :
    (¬ (0 < lim ∧ a ≤ 2 * lim) → cs < 700 →
      (run_unified_agent false m st db fraud llmOk none).eligibility_path
        = some Path.HARD_REJECT ∧
      (run_unified_agent false m st db fraud llmOk none).conversation_stage
        = Stage.completed) ∧
    (lim = 0 →
      ((run_unified_agent false m st db fraud llmOk none).eligibility_path
          = some Path.HARD_REJECT ↔ cs < 700)) := by
  have hrun : run_unified_agent false m st db fraud llmOk none
      = runAgentOk m st db fraud llmOk := rfl
  rw [hrun, runAgentOk_decision m st db fraud llmOk p a hφ hφ2 hρ ha hn hstg]
  unfold decideEligibility
  have hnle : ¬ a ≤ lim := not_le.mpr hgt
  constructor
  · intro h2x hscore
    have hs : ¬ 700 ≤ cs := not_le.mpr hscore
    rw [Classical.not_and_iff_or_not_not] at h2x
    obtain h | h := h2x <;> simp [hdb, hlim, hcs, hnle, hs, h]
  · intro hlim0
    subst hlim0
    by_cases hs : 700 ≤ cs
    · by_cases hdoc : st.document_uploaded = true
      · by_cases hbl : (fraud (some rec) == FraudStatus.Blacklisted ||
            rec.blacklisted.getD false) = true
        · simp [hdb, hlim, hcs, hnle, hs, hdoc, hbl]
        · simp [hdb, hlim, hcs, hnle, hs, hdoc, hbl]
      · have hdoc2 : st.document_uploaded = false := by
          simpa using hdoc
        simp [hdb, hlim, hcs, hnle, hs, hdoc2]
    · simp [hdb, hlim, hcs, hnle, hs, not_le.mp hs]

/-- C5: once the stored phone (resp. requested amount) is truthy, the
extractor produces no phone (resp. amount) candidate, so the turn
update of app.py leaves the stored value unchanged, whatever the new
message contains. -/
theorem C5_write_once (m : MsgScan) (st : ConvState)
    (db : String → Option CustomerRecord)
    (fraud : Option CustomerRecord → FraudStatus) (llmOk firstTurn : Bool)
    (fault : Option String) :
    (truthyS st.phone = true →
      (extractAll m st db).phone = none ∧
      (applyUpdate st (run_unified_agent firstTurn m st db fraud llmOk fault)).phone
        = st.phone) ∧
    (truthyN st.requested_amount = true →
      (extractAll m st db).requested_amount = none ∧
      (applyUpdate st (run_unified_agent firstTurn m st db fraud llmOk fault)).requested_amount
        = st.requested_amount) := by
  constructor
  · intro h
    have hex := (extractAll_phone_skip m st db h).1
    refine ⟨hex, ?_⟩
    by_cases hf : firstTurn = true
    · simp [run_unified_agent, hf, applyUpdate, truthyS]
    · have hf2 : firstTurn = false := by simpa using hf
      cases fault with
      | some e => simp [run_unified_agent, hf2, applyUpdate, truthyS]
      | none =>
        have hph := (runAgentOk_extracted m st db fraud llmOk).1
        simp [run_unified_agent, hf2, applyUpdate, hph, hex, truthyS]
  · intro h
    have hex := extractAll_amount_skip m st db h
    refine ⟨hex, ?_⟩
    by_cases hf : firstTurn = true
    · simp [run_unified_agent, hf, applyUpdate, truthyN]
    · have hf2 : firstTurn = false := by simpa using hf
      cases fault with
      | some e => simp [run_unified_agent, hf2, applyUpdate, truthyN]
      | none =>
        have ham := (runAgentOk_extracted m st db fraud llmOk).2
        simp [run_unified_agent, hf2, applyUpdate, ham, hex, truthyN]

/-- C6: at most one requested-amount candidate per message, decided by
the first satisfied pattern of the fixed chain lakh, crore, rupee
(range-filtered), standalone 6-7 digit number (first one in range);
an earlier matching pattern suppresses all later ones. -/
theorem C6_amount_priority (m : MsgScan) :
    (∀ q : ℚ, m.lakh = some q →
      extractAmount m = some (Int.toNat ⌊q * 100000⌋)) ∧
    (m.lakh = none → ∀ q : ℚ, m.crore = some q →
      extractAmount m = some (Int.toNat ⌊q * 10000000⌋)) ∧
    (m.lakh = none → m.crore = none → ∀ v : Nat, m.rupee = some v →
      extractAmount m = (if amtInRange v then some v else none)) ∧
    (m.lakh = none → m.crore = none → m.rupee = none →
      extractAmount m = m.bigNums.find? amtInRange) := by
  refine ⟨?_, ?_, ?_, ?_⟩ <;> intros <;> simp_all [extractAmount]

/-- C7: the tenure-finalization transition fires only in stage
approved; there, with a positive stored amount and a tenure candidate
extracted this turn, the result is stage completed, the retained
eligibility path, the selected tenure, and the 8.5 percent
amortization EMI over the selected months; tenure candidates come only
from the fixed set 24/36/48/60/72. -/
theorem C7_tenure_finalization (m : MsgScan) (st : ConvState)
    (db : String → Option CustomerRecord)
    (fraud : Option CustomerRecord → FraudStatus) (llmOk : Bool)
    (a t : Nat) (hρ : st.requested_amount = some a) (ha : 0 < a) :
    (st.conversation_stage = some Stage.approved →
      (extractAll m st db).selected_tenure = some t →
      (run_unified_agent false m st db fraud llmOk none).conversation_stage
        = Stage.completed ∧
      (run_unified_agent false m st db fraud llmOk none).eligibility_path
        = some (st.eligibility_path.getD Path.FAST_TRACK) ∧
      (run_unified_agent false m st db fraud llmOk none).selected_tenure = some t ∧
      (run_unified_agent false m st db fraud llmOk none).final_emi
        = some (compute_emi (a : ℚ) (17 / 2) t)) ∧
    (st.conversation_stage ≠ some Stage.approved →
      (run_unified_agent false m st db fraud llmOk none).final_emi = none) ∧
    (∀ hits : List Bool, extractTenure hits = none ∨
      extractTenure hits ∈
        ([some 24, some 36, some 48, some 60, some 72] : List (Option Nat))) := by
  have hrun : run_unified_agent false m st db fraud llmOk none
      = runAgentOk m st db fraud llmOk := rfl
  refine ⟨?_, ?_, ?_⟩
  · intro hstage htt
    rw [hrun]
    unfold runAgentOk
    rw [if_pos hstage]
    simp only [htt, hρ, Option.getD_some]
    rw [if_pos ha]
    refine ⟨rfl, rfl, rfl, ?_⟩
    have hemi : compute_emi (a : ℚ) (17 / 2) t =
        (a : ℚ) * (17 / 2 / 100 / 12) * (1 + 17 / 2 / 100 / 12) ^ t /
          ((1 + 17 / 2 / 100 / 12) ^ t - 1) := by
      unfold compute_emi
      norm_num
    rw [hemi]
  · intro h
    rw [hrun, runAgentOk_not_approved m st db fraud llmOk h]
    exact agentRest_final_emi (extractAll m st db) st db fraud llmOk
  · intro hits
    cases hfd : extractTenure hits with
    | none => exact Or.inl rfl
    | some v =>
      right
      have hfd2 := hfd
      unfold extractTenure at hfd2
      have hmem := findSome_zip_mem hits tenureTable v hfd2
      simp [tenureTable] at hmem
      simp only [List.mem_cons, List.not_mem_nil, or_false, Option.some.injEq]
      tauto

/-- C8: the EMI function computes monthly rate r from the annual
percentage and returns principal divided by months for r = 0 and the
standard amortization formula otherwise; at principal 500000, rate
8.5, tenure 60, the EMI is within one unit of 10258.3. -/
theorem C8_emi_formula :
    (∀ (p a : ℚ) (n : ℕ), a / 100 / 12 = 0 → compute_emi p a n = p / (n : ℚ)) ∧
    (∀ (p a : ℚ) (n : ℕ), a / 100 / 12 ≠ 0 →
      compute_emi p a n =
        p * (a / 100 / 12) * (1 + a / 100 / 12) ^ n /
          ((1 + a / 100 / 12) ^ n - 1)) ∧
    (∀ (p a : ℚ) (n : ℕ), calculate_emi p a n = compute_emi p a n) ∧
    |compute_emi 500000 (17 / 2) 60 - 102583 / 10| ≤ 1 := by
  refine ⟨?_, ?_, fun p a n => rfl, ?_⟩
  · intro p a n h
    unfold compute_emi
    rw [if_pos h]
  · intro p a n h
    unfold compute_emi
    rw [if_neg h]
  · rw [abs_le]
    constructor <;> norm_num [compute_emi]

/-- C9: an unexpected internal exception during a turn is converted at
the turn boundary into the fixed generic retry message, the stage read
back from state, and the subsequent state update is the identity: no
confirmed field changes. -/
theorem C9_fault_preserves_state (e : String) (m : MsgScan) (st : ConvState)
    (db : String → Option CustomerRecord)
    (fraud : Option CustomerRecord → FraudStatus) (llmOk : Bool) (s : Stage)
    (hs : st.conversation_stage = some s) :
    (run_unified_agent false m st db fraud llmOk (some e)).message = Msg.retryMsg ∧
    (run_unified_agent false m st db fraud llmOk (some e)).conversation_stage = s ∧
    applyUpdate st (run_unified_agent false m st db fraud llmOk (some e)) = st := by
  refine ⟨rfl, ?_, ?_⟩
  · simp [run_unified_agent, hs]
  · obtain ⟨ph, ver, crm, cn, csc, pal, inc, ra, du, ep, cst, selt, femi⟩ := st
    simp only [ConvState.mk.injEq] at hs ⊢
    subst hs
    simp [run_unified_agent, applyUpdate, truthyS, truthyN]

/-- C10: under nonnegative rate and tenure at least one month, the
denominator of the selected EMI branch is nonzero (the zero-rate
branch divides by the month count, the positive-rate branch by
a power strictly above one, minus one); at tenure zero both branch
denominators vanish, so the precondition is necessary. -/
theorem C10_emi_denominators :
    (∀ (p a : ℚ) (n : ℕ), compute_emi p a n =
      (if a / 100 / 12 = 0 then p else p * (a / 100 / 12) * (1 + a / 100 / 12) ^ n)
        / emiDenominator a n) ∧
    (∀ (a : ℚ) (n : ℕ), 0 ≤ a → 1 ≤ n → emiDenominator a n ≠ 0) ∧
    (∀ a : ℚ, emiDenominator a 0 = 0) ∧
    (∀ (p a : ℚ) (n : ℕ), calculate_emi p a n = compute_emi p a n) := by
  refine ⟨?_, ?_, ?_, fun p a n => rfl⟩
  · intro p a n
    unfold compute_emi emiDenominator
    by_cases h : a / 100 / 12 = 0
    · simp [h]
    · simp [h]
  · intro a n h0 h1
    unfold emiDenominator
    by_cases h : a / 100 / 12 = 0
    · simp only [h, if_true]
      exact Nat.cast_ne_zero.mpr (by omega)
    · simp only [h, if_false]
      have hr : 0 < a / 100 / 12 := lt_of_le_of_ne (by positivity) (Ne.symm h)
      have h1r : 1 < 1 + a / 100 / 12 := by linarith
      have hp := one_lt_pow₀ h1r (show n ≠ 0 by omega)
      exact sub_ne_zero.mpr (ne_of_gt hp)
  · intro a
    unfold emiDenominator
    by_cases h : a / 100 / 12 = 0
    · simp [h]
    · simp [h]

/-! ### Concrete scenario data (witnesses and the C4 bug) -/

/-- A fraud screen that always returns Clear. -/
def fraudClear : Option CustomerRecord → FraudStatus := fun _ => FraudStatus.Clear

/-- A message with no recognized tokens at all. -/
def msgEmpty : MsgScan := {}

/-- Scenario A record: limit 600000, score 750, not blacklisted. -/
def recA : CustomerRecord :=
  ⟨"Asha", some 750, some 600000, some 80000, some false⟩

/-- Scenario B record: limit 300000, score 720. -/
def recB : CustomerRecord :=
  ⟨"Bela", some 720, some 300000, some 60000, some false⟩

/-- Scenario E record: limit 200000, score 650. -/
def recE : CustomerRecord :=
  ⟨"Esha", some 650, some 200000, some 50000, some false⟩

/-- The mock registry holding the three scenario records. -/
def dbDemo : String → Option CustomerRecord := fun p =>
  if p = "9876543210" then some recA
  else if p = "9998887776" then some recB
  else if p = "7776665554" then some recE
  else none

/-- Scenario A state: verified phone and amount 500000 collected. -/
def stA : ConvState :=
  { phone := some "9876543210", requested_amount := some 500000,
    verified := true, credit_score := some 750, pre_approved_limit := some 600000,
    conversation_stage := some Stage.eligibility_check }

/-- Scenario B state: amount 500000 above limit 300000, no document. -/
def stB : ConvState :=
  { phone := some "9998887776", requested_amount := some 500000,
    verified := true, credit_score := some 720, pre_approved_limit := some 300000,
    conversation_stage := some Stage.eligibility_check }

/-- Scenario B state after the salary slip upload. -/
def stB2 : ConvState := { stB with document_uploaded := true }

/-- Scenario E state: amount 1000000 against limit 200000, score 650. -/
def stE : ConvState :=
  { phone := some "7776665554", requested_amount := some 1000000,
    verified := true, credit_score := some 650, pre_approved_limit := some 200000,
    conversation_stage := some Stage.eligibility_check }

/-- A post-fast-track state awaiting a tenure selection. -/
def stApproved : ConvState :=
  { phone := some "9876543210", requested_amount := some 500000,
    verified := true, eligibility_path := some Path.FAST_TRACK,
    conversation_stage := some Stage.approved }

/-- A message selecting the 60-month tenure (fourth tenure regex). -/
def msgTenure60 : MsgScan := { tenureHits := [false, false, false, true] }

/-- A message carrying both a fresh phone-like token and a fresh
amount-like token, to exercise the write-once guards. -/
def msgSpam : MsgScan := { phoneMatches := ["1112223334"], bigNums := [700000] }

/-- The initial session dict of session_manager.init_session: phone
absent, amount and limit zero. -/
def demoState0 : ConvState :=
  { pre_approved_limit := some 0, requested_amount := some 0, income := some 0,
    conversation_stage := some Stage.loan_understanding }

/-- Turn-1 message of scenario D: a well-formed phone absent from the
registry, together with amount 200000. -/
def demoMsg1 : MsgScan := { phoneMatches := ["9123456789"], bigNums := [200000] }

/-- C4: on the turn that discovers the phone is not in the CRM the
REGISTER redirect takes precedence (first conjunct), but because the
app.py update dict never persists not_in_crm, re-sending any message
on the next turn re-runs the engine against an absent record (limit 0,
score 0) and reaches HARD_REJECT - contradicting the terminal-REGISTER
invariant the spec states. -/
theorem C4_register_not_terminal :
    ((run_unified_agent false demoMsg1 demoState0 dbDemo fraudClear false none).eligibility_path
        = some Path.REGISTER ∧
      (run_unified_agent false demoMsg1 demoState0 dbDemo fraudClear false none).conversation_stage
        = Stage.completed) ∧
    ((run_unified_agent false msgEmpty
        (applyUpdate demoState0
          (run_unified_agent false demoMsg1 demoState0 dbDemo fraudClear false none))
        dbDemo fraudClear false none).eligibility_path = some Path.HARD_REJECT ∧
      (run_unified_agent false msgEmpty
        (applyUpdate demoState0
          (run_unified_agent false demoMsg1 demoState0 dbDemo fraudClear false none))
        dbDemo fraudClear false none).conversation_stage = Stage.completed) := by
  decide

/-- A message whose lakh pattern matches while the later amount
patterns also match. -/
def msgLakh : MsgScan :=
  { lakh := some 5, crore := some 2, rupee := some 300000, bigNums := [200000] }

/-- A message whose rupee pattern matches an out-of-range value while
an in-range standalone number is also present. -/
def msgRupeeSmall : MsgScan := { rupee := some 50, bigNums := [500000] }

/-- Witness for C1: scenario A fast-tracks with no final EMI. -/
theorem C1_witness :
    (run_unified_agent false msgEmpty stA dbDemo fraudClear false none).eligibility_path
      = some Path.FAST_TRACK ∧
    (run_unified_agent false msgEmpty stA dbDemo fraudClear false none).conversation_stage
      = Stage.approved ∧
    (run_unified_agent false msgEmpty stA dbDemo fraudClear false none).final_emi = none :=
  (C1_fast_track_vs_manual_review msgEmpty stA dbDemo fraudClear false
    "9876543210" 500000 600000 recA rfl (by decide) rfl (by decide) rfl (by decide)
    (by decide) rfl (by decide)).2 (by decide)

/-- Witness for C2: scenario B is CONDITIONAL, first awaiting the
document, then completing once it is uploaded. -/
theorem C2_witness :
    ((run_unified_agent false msgEmpty stB dbDemo fraudClear false none).eligibility_path
        = some Path.CONDITIONAL ∧
      (run_unified_agent false msgEmpty stB dbDemo fraudClear false none).conversation_stage
        = Stage.document_needed) ∧
    ((run_unified_agent false msgEmpty stB2 dbDemo fraudClear false none).eligibility_path
        = some Path.CONDITIONAL ∧
      (run_unified_agent false msgEmpty stB2 dbDemo fraudClear false none).conversation_stage
        = Stage.completed) :=
  ⟨(C2_conditional_path msgEmpty stB dbDemo fraudClear false
      "9998887776" 500000 300000 720 recB rfl (by decide) rfl (by decide) rfl
      (by decide) (by decide) rfl rfl (by decide) (by decide)).1 rfl,
    ((C2_conditional_path msgEmpty stB2 dbDemo fraudClear false
      "9998887776" 500000 300000 720 recB rfl (by decide) rfl (by decide) rfl
      (by decide) (by decide) rfl rfl (by decide) (by decide)).2 rfl).2 (by decide)⟩

/-- Witness for C3: scenario E hard-rejects. -/
theorem C3_witness :
    (run_unified_agent false msgEmpty stE dbDemo fraudClear false none).eligibility_path
      = some Path.HARD_REJECT ∧
    (run_unified_agent false msgEmpty stE dbDemo fraudClear false none).conversation_stage
      = Stage.completed :=
  (C3_hard_reject msgEmpty stE dbDemo fraudClear false
    "7776665554" 1000000 200000 650 recE rfl (by decide) rfl (by decide) rfl
    (by decide) (by decide) rfl rfl (by decide)).1 (by decide) (by decide)

/-- Witness for C5: with phone and amount stored, a message full of
fresh candidates changes neither. -/
theorem C5_witness :
    (extractAll msgSpam stA dbDemo).phone = none ∧
    (applyUpdate stA (run_unified_agent false msgSpam stA dbDemo fraudClear false none)).phone
      = stA.phone ∧
    (extractAll msgSpam stA dbDemo).requested_amount = none ∧
    (applyUpdate stA (run_unified_agent false msgSpam stA dbDemo fraudClear false none)).requested_amount
      = stA.requested_amount := by
  have h := C5_write_once msgSpam stA dbDemo fraudClear false false none
  exact ⟨(h.1 (by decide)).1, (h.1 (by decide)).2, (h.2 (by decide)).1, (h.2 (by decide)).2⟩

/-- Witness for C6: the lakh pattern wins over all later patterns, and
an out-of-range rupee match yields nothing even though an in-range
standalone number is present. -/
theorem C6_witness :
    extractAmount msgLakh = some 500000 ∧ extractAmount msgRupeeSmall = none := by
  have h1 := (C6_amount_priority msgLakh).1 5 rfl
  have h2 := (C6_amount_priority msgRupeeSmall).2.2.1 rfl rfl 50 rfl
  constructor
  · rw [h1]
    norm_num
    decide
  · rw [h2]
    decide

/-- Witness for C7: selecting 60 months after a fast-track approval
finalizes the loan at the amortization EMI. -/
theorem C7_witness :
    (run_unified_agent false msgTenure60 stApproved dbDemo fraudClear false none).conversation_stage
      = Stage.completed ∧
    (run_unified_agent false msgTenure60 stApproved dbDemo fraudClear false none).eligibility_path
      = some Path.FAST_TRACK ∧
    (run_unified_agent false msgTenure60 stApproved dbDemo fraudClear false none).selected_tenure
      = some 60 ∧
    (run_unified_agent false msgTenure60 stApproved dbDemo fraudClear false none).final_emi
      = some (compute_emi (500000 : ℚ) (17 / 2) 60) := by
  have h := (C7_tenure_finalization msgTenure60 stApproved dbDemo fraudClear false
    500000 60 rfl (by decide)).1 rfl (by decide)
  simpa using h

/-- Witness for C8: both formula branches and the 60-month value. -/
theorem C8_witness :
    compute_emi 100 0 5 = 100 / (5 : ℚ) ∧
    calculate_emi 500000 (17 / 2) 60 = compute_emi 500000 (17 / 2) 60 ∧
    compute_emi 500000 (17 / 2) 60 =
      500000 * (17 / 2 / 100 / 12) * (1 + 17 / 2 / 100 / 12) ^ 60 /
        ((1 + 17 / 2 / 100 / 12) ^ 60 - 1) :=
  ⟨C8_emi_formula.1 100 0 5 (by norm_num),
    C8_emi_formula.2.2.1 500000 (17 / 2) 60,
    C8_emi_formula.2.1 500000 (17 / 2) 60 (by norm_num)⟩

/-- Witness for C9: a faulted turn on scenario A's state leaves the
state fixed and produces the retry message. -/
theorem C9_witness :
    (run_unified_agent false msgEmpty stA dbDemo fraudClear false (some "boom")).message
      = Msg.retryMsg ∧
    (run_unified_agent false msgEmpty stA dbDemo fraudClear false (some "boom")).conversation_stage
      = Stage.eligibility_check ∧
    applyUpdate stA (run_unified_agent false msgEmpty stA dbDemo fraudClear false (some "boom"))
      = stA :=
  C9_fault_preserves_state "boom" msgEmpty stA dbDemo fraudClear false
    Stage.eligibility_check rfl

/-- Witness for C10: both EMI branch denominators are nonzero on
admissible inputs. -/
theorem C10_witness :
    emiDenominator 0 12 ≠ 0 ∧ emiDenominator (17 / 2) 60 ≠ 0 :=
  ⟨C10_emi_denominators.2.1 0 12 (by norm_num) (by norm_num),
    C10_emi_denominators.2.1 (17 / 2) 60 (by norm_num) (by norm_num)⟩

end BankGPT
